import Mathlib

/-!
Shallow embedding of `async-stream-rs` (src/src/lib.rs).

The crate turns an async closure into a stream: the closure gets a `Sender`
sharing a single-item slot (`Arc<Cell<Option<I>>>`) with the stream; `send`
deposits a value into the slot and returns a `SenderFuture` that is `Pending`
on its first poll and `Ready` afterwards, so control returns to the stream
right after each deposit.  `poll_next` polls the stored producer future once:
`Ready` means end of stream, `Pending` means "check the slot".

Futures are embedded as state machines: polling takes the producer state and
the shared slot and returns the poll result, the new state and the new slot.
A poll returning `none` models a panic inside `poll` (a producer unwrap panic,
or an async block resumed after completion, which panics in Rust).
-/

namespace AsyncStreamRs

/-- Poll result of a futures 0.3 future, as used throughout src/src/lib.rs. -/
inductive Poll (α : Type) where
  | Ready (a : α)
  | Pending
deriving DecidableEq, Repr

/-- Async result of a futures 0.1 future, used by the compat impl
(src/src/lib.rs lines 321-356). -/
inductive Async01 (α : Type) where
  | Ready (a : α)
  | NotReady
deriving DecidableEq, Repr

/-- The single-item slot shared between the `Sender` and the stream: the
content of the `Arc<Cell<Option<I>>>` from src/src/lib.rs line 160. -/
abbrev Slot (ι : Type) := Option ι

/-- Future returned by `Sender::send` (src/src/lib.rs lines 131-133). -/
structure SenderFuture where
  is_ready : Bool
deriving DecidableEq, Repr

/-- Constructor `SenderFuture::new` (src/src/lib.rs lines 137-139). -/
def SenderFuture.new : SenderFuture :=
  { is_ready := false }

/-- Poll of `SenderFuture` (src/src/lib.rs lines 147-154): returns `Pending`
once, then `Ready` on every later call. -/
def SenderFuture.poll (s : SenderFuture) : Poll Unit × SenderFuture :=
  if s.is_ready then (Poll.Ready (), s)
  else (Poll.Pending, { is_ready := true })

/-- Results of polling `SenderFuture` repeatedly from state `s`. -/
def SenderFuture.pollTrace (s : SenderFuture) : Nat → List (Poll Unit)
  | 0 => []
  | n + 1 =>
    let r := SenderFuture.poll s
    r.1 :: SenderFuture.pollTrace r.2 n

/-- Method `Sender::send` (src/src/lib.rs lines 175-179): stores `item.into()`
into the shared slot cell (`self.0.set(Some(item.into()))`) and returns a
fresh `SenderFuture`.  `into` is the `T: Into<I>` conversion; the call itself
never suspends. -/
def Sender.send (into : τ → ι) (_slot : Slot ι) (item : τ) : Slot ι × SenderFuture :=
  (some (into item), SenderFuture.new)

/-- A producer future as the stream sees it (`Pin<Box<dyn Future>>`): polling
it steps its internal state `σ` and may read and write the shared slot.
`none` models a panic during that poll. -/
structure ProducerFuture (σ ι ω : Type) where
  poll : σ → Slot ι → Option (Poll ω × σ × Slot ι)

/-- The `AsyncStream` struct (src/src/lib.rs lines 204-207): the `item` field
is the sender side of the shared slot, `fut` the boxed producer future. -/
structure AsyncStream (σ ι : Type) where
  item : Slot ι
  fut : Option σ
deriving DecidableEq, Repr

/-- `AsyncStream::new` (src/src/lib.rs lines 214-225): stores the single
application of the factory to the fresh sender as `fut`; the slot starts
empty (`Sender::new` makes `Cell::new(None)`) and no producer code runs. -/
def AsyncStream.new (f : σ) : AsyncStream σ ι :=
  { item := none, fut := some f }

/-- `<AsyncStream as Stream>::poll_next` (src/src/lib.rs lines 232-252):
unwrap `fut` (panic if `None`), poll it; `Ready` ends the stream, `Pending`
drains the slot (`self.item.0.replace(None)`) and yields its content if any.
The result `none` is a panic (of the unwrap, or inside the producer poll). -/
def AsyncStream.poll_next (m : ProducerFuture σ ι Unit) (s : AsyncStream σ ι) :
    Option (Poll (Option ι)) × AsyncStream σ ι :=
  match s.fut with
  | none => (none, s)
  | some f =>
    match m.poll f s.item with
    | none => (none, s)
    | some (pollres, f', slot') =>
      match pollres with
      | Poll.Ready _ => (some (Poll.Ready none), { item := slot', fut := some f' })
      | Poll.Pending =>
        match slot' with
        | none => (some Poll.Pending, { item := none, fut := some f' })
        | some v => (some (Poll.Ready (some v)), { item := none, fut := some f' })

/-- Results of `n` successive `poll_next` calls on an `AsyncStream`. -/
def AsyncStream.trace (m : ProducerFuture σ ι Unit) :
    AsyncStream σ ι → Nat → List (Option (Poll (Option ι)))
  | _, 0 => []
  | s, n + 1 =>
    let r := AsyncStream.poll_next m s
    r.1 :: AsyncStream.trace m r.2 n

/-- State of an `AsyncStream` after `n` successive `poll_next` calls. -/
def AsyncStream.drive (m : ProducerFuture σ ι Unit) :
    AsyncStream σ ι → Nat → AsyncStream σ ι
  | s, 0 => s
  | s, n + 1 => AsyncStream.drive m (AsyncStream.poll_next m s).2 n

/-- The `AsyncTryStream` struct (src/src/lib.rs lines 269-272): like
`AsyncStream` but the producer future resolves to `Result<(), Error>`. -/
structure AsyncTryStream (σ ι ε : Type) where
  item : Slot ι
  fut : Option σ
deriving DecidableEq, Repr

/-- `AsyncTryStream::new` (src/src/lib.rs lines 279-290): same shape as
`AsyncStream::new`. -/
def AsyncTryStream.new (f : σ) : AsyncTryStream σ ι ε :=
  { item := none, fut := some f }

/-- `<AsyncTryStream as Stream>::poll_next` (src/src/lib.rs lines 297-318):
`Ready(Ok(_))` ends the stream, `Ready(Err(e))` yields `Some(Err(e))`,
`Pending` drains the slot and yields its content wrapped in `Ok` if any. -/
def AsyncTryStream.poll_next (m : ProducerFuture σ ι (Except ε Unit))
    (s : AsyncTryStream σ ι ε) :
    Option (Poll (Option (Except ε ι))) × AsyncTryStream σ ι ε :=
  match s.fut with
  | none => (none, s)
  | some f =>
    match m.poll f s.item with
    | none => (none, s)
    | some (pollres, f', slot') =>
      match pollres with
      | Poll.Ready (Except.ok _) =>
        (some (Poll.Ready none), { item := slot', fut := some f' })
      | Poll.Ready (Except.error e) =>
        (some (Poll.Ready (some (Except.error e))), { item := slot', fut := some f' })
      | Poll.Pending =>
        match slot' with
        | none => (some Poll.Pending, { item := none, fut := some f' })
        | some v =>
          (some (Poll.Ready (some (Except.ok v))), { item := none, fut := some f' })

/-- Results of `n` successive `poll_next` calls on an `AsyncTryStream`. -/
def AsyncTryStream.trace (m : ProducerFuture σ ι (Except ε Unit)) :
    AsyncTryStream σ ι ε → Nat → List (Option (Poll (Option (Except ε ι))))
  | _, 0 => []
  | s, n + 1 =>
    let r := AsyncTryStream.poll_next m s
    r.1 :: AsyncTryStream.trace m r.2 n

/-- State of an `AsyncTryStream` after `n` successive `poll_next` calls. -/
def AsyncTryStream.drive (m : ProducerFuture σ ι (Except ε Unit)) :
    AsyncTryStream σ ι ε → Nat → AsyncTryStream σ ι ε
  | s, 0 => s
  | s, n + 1 => AsyncTryStream.drive m (AsyncTryStream.poll_next m s).2 n

/-- The `futures::compat::Compat` translation used on src/src/lib.rs line 340:
polling the wrapped 0.3 future in a 0.1 context maps `Ready(Ok(x))` to
`Ok(Async::Ready(x))`, `Ready(Err(e))` to `Err(e)` and `Pending` to
`Ok(Async::NotReady)`. -/
def Compat03As01.poll (pr : Poll (Except ε α)) : Except ε (Async01 α) :=
  match pr with
  | Poll.Ready (Except.ok x) => Except.ok (Async01.Ready x)
  | Poll.Ready (Except.error e) => Except.error e
  | Poll.Pending => Except.ok Async01.NotReady

/-- `<AsyncTryStream as Stream01>::poll` (src/src/lib.rs lines 333-354): take
`fut` out (unwrap panics if `None`), poll it through the compat wrapper, put
it back, then translate: `Ok(Ready(_))` is done, `Ok(NotReady)` drains the
slot, `Err(e)` is the stream error.  If the producer poll panics, `fut` has
already been taken out and is not restored; the panic propagates (`none`). -/
def AsyncTryStream.poll01 (m : ProducerFuture σ ι (Except ε Unit))
    (s : AsyncTryStream σ ι ε) :
    Option (Except ε (Async01 (Option ι))) × AsyncTryStream σ ι ε :=
  match s.fut with
  | none => (none, s)
  | some f =>
    match m.poll f s.item with
    | none => (none, { s with fut := none })
    | some (pr03, f', slot') =>
      let restored : AsyncTryStream σ ι ε := { item := slot', fut := some f' }
      match Compat03As01.poll pr03 with
      | Except.ok (Async01.Ready _) =>
        (some (Except.ok (Async01.Ready none)), restored)
      | Except.ok Async01.NotReady =>
        match slot' with
        | none => (some (Except.ok Async01.NotReady), { restored with item := none })
        | some v =>
          (some (Except.ok (Async01.Ready (some v))), { restored with item := none })
      | Except.error e => (some (Except.error e), restored)

/-- Suspended state of the compiled async block
`for v in vs .. sender.send(v).await ..; r` (the producer shape of the
crate's `async_stream!` macros).  `suspended sf vs r` holds the awaited
`SenderFuture` and the values still to emit; `done` is the block after it
returned (resuming it again panics in Rust). -/
inductive BodyState (ι ω : Type) where
  | start (vs : List ι) (r : ω)
  | suspended (sf : SenderFuture) (vs : List ι) (r : ω)
  | done
deriving DecidableEq, Repr

/-- One resumption of the loop body from its head: if values remain, execute
`sender.send v`, then poll the returned `SenderFuture` (the compiled `await`
polls it at once); if it is `Pending` the block suspends there, if `Ready`
the loop continues.  With no values left the block returns `r`. -/
def bodyRun (r : ω) : List ι → Slot ι → Option (Poll ω × BodyState ι ω × Slot ι)
  | [], slot => some (Poll.Ready r, BodyState.done, slot)
  | v :: vs, slot =>
    let sent := Sender.send id slot v
    match sent.2.poll with
    | (Poll.Pending, sf') => some (Poll.Pending, BodyState.suspended sf' vs r, sent.1)
    | (Poll.Ready _, _) => bodyRun r vs sent.1

/-- The producer future compiled from the async block emitting a list of
values and then returning `r`: the usual body written with the crate's
macros (src/src/lib.rs lines 69-125 and the doc example at lines 28-32). -/
def listBody (ι ω : Type) : ProducerFuture (BodyState ι ω) ι ω where
  poll f slot :=
    match f with
    | BodyState.start vs r => bodyRun r vs slot
    | BodyState.suspended sf vs r =>
      match sf.poll with
      | (Poll.Ready _, _) => bodyRun r vs slot
      | (Poll.Pending, sf') => some (Poll.Pending, BodyState.suspended sf' vs r, slot)
    | BodyState.done => none

/-- A producer whose async block calls `sender.send v` but drops the returned
`SenderFuture` without awaiting it and returns `r` at once (state `false` is
the unstarted block, `true` the completed one; resuming after completion
panics). -/
def sendDropBody (v : ι) (r : ω) : ProducerFuture Bool ι ω where
  poll f slot :=
    match f with
    | false =>
      let sent := Sender.send id slot v
      some (Poll.Ready r, true, sent.1)
    | true => none

/-- A boxed producer future that tolerates being polled after completion:
every poll reports `Ready` and the state counts how often it was polled. -/
def readyBody (ι : Type) : ProducerFuture Nat ι Unit where
  poll n slot := some (Poll.Ready (), n + 1, slot)

/-- A boxed fallible producer future that tolerates being polled after
completion: every poll reports `Ready (Err e)` with the same error, and the
state counts how often it was polled. -/
def errBody (ι : Type) (e : ε) : ProducerFuture Nat ι (Except ε Unit) where
  poll n slot := some (Poll.Ready (Except.error e), n + 1, slot)

/-- The terminal `poll_next` report of an `AsyncTryStream` whose producer
returns `r`: plain end of stream for `Ok(())`, the error item for `Err(e)`. -/
def tryEnd {ι ε : Type} (r : Except ε Unit) : Option (Poll (Option (Except ε ι))) :=
  match r with
  | Except.ok _ => some (Poll.Ready none)
  | Except.error e => some (Poll.Ready (some (Except.error e)))

/-- The futures 0.1 outcome corresponding to a futures 0.3 `poll_next` result:
the correspondence the compat impl (src/src/lib.rs lines 329-355) is claimed
to realise.  A panic corresponds to a panic. -/
def compatResult {ι ε : Type} :
    Option (Poll (Option (Except ε ι))) → Option (Except ε (Async01 (Option ι)))
  | some (Poll.Ready none) => some (Except.ok (Async01.Ready none))
  | some (Poll.Ready (some (Except.ok v))) => some (Except.ok (Async01.Ready (some v)))
  | some (Poll.Ready (some (Except.error e))) => some (Except.error e)
  | some Poll.Pending => some (Except.ok Async01.NotReady)
  | none => none

/-! Helper lemmas shared by the claim theorems. -/

/-- One `poll_next` step of the infallible list producer: resuming the
suspended emit point completes it, the next `send` fills the slot, its fresh
emit point suspends, and `poll_next` drains the slot. -/
theorem listBody_step_cons (ι : Type) (v : ι) (vs : List ι) :
    AsyncStream.poll_next (listBody ι Unit)
        ⟨none, some (BodyState.suspended ⟨true⟩ (v :: vs) ())⟩ =
      (some (Poll.Ready (some v)), ⟨none, some (BodyState.suspended ⟨true⟩ vs ())⟩) :=
  rfl

/-- Polling a stream whose producer poll panics reports the panic and changes
nothing, forever. -/
theorem streamTrace_panic (m : ProducerFuture σ ι Unit) (s : AsyncStream σ ι)
    (f : σ) (hf : s.fut = some f) (hp : m.poll f s.item = none) (n : Nat) :
    AsyncStream.trace m s n = List.replicate n none := by
  induction n with
  | zero => rfl
  | succ k ih =>
    have hstep : AsyncStream.poll_next m s = (none, s) := by
      simp [AsyncStream.poll_next, hf, hp]
    show (AsyncStream.poll_next m s).1 ::
        AsyncStream.trace m (AsyncStream.poll_next m s).2 k = _
    rw [hstep]
    simpa [List.replicate] using ih

/-- Try-stream version of `streamTrace_panic`. -/
theorem tryTrace_panic (m : ProducerFuture σ ι (Except ε Unit))
    (s : AsyncTryStream σ ι ε) (f : σ) (hf : s.fut = some f)
    (hp : m.poll f s.item = none) (n : Nat) :
    AsyncTryStream.trace m s n = List.replicate n none := by
  induction n with
  | zero => rfl
  | succ k ih =>
    have hstep : AsyncTryStream.poll_next m s = (none, s) := by
      simp [AsyncTryStream.poll_next, hf, hp]
    show (AsyncTryStream.poll_next m s).1 ::
        AsyncTryStream.trace m (AsyncTryStream.poll_next m s).2 k = _
    rw [hstep]
    simpa [List.replicate] using ih

/-- Driving the suspended infallible list producer for one step per remaining
value and one more yields the values in order and then end of stream. -/
theorem listBody_trace_suspended (ι : Type) (vs : List ι) :
    AsyncStream.trace (listBody ι Unit)
        ⟨none, some (BodyState.suspended ⟨true⟩ vs ())⟩ (vs.length + 1) =
      vs.map (fun v => some (Poll.Ready (some v))) ++ [some (Poll.Ready none)] := by
  induction vs with
  | nil => rfl
  | cons v vs ih =>
    have hn : (v :: vs).length + 1 = (vs.length + 1) + 1 := by simp
    rw [hn]
    show (AsyncStream.poll_next (listBody ι Unit)
          ⟨none, some (BodyState.suspended ⟨true⟩ (v :: vs) ())⟩).1 ::
        AsyncStream.trace (listBody ι Unit)
          (AsyncStream.poll_next (listBody ι Unit)
            ⟨none, some (BodyState.suspended ⟨true⟩ (v :: vs) ())⟩).2 (vs.length + 1) = _
    rw [listBody_step_cons]
    simp [ih]

/-- Try-stream version of `listBody_step_cons`: the drained value is reported
wrapped in `Ok`. -/
theorem listBodyTry_step_cons (ι ε : Type) (r : Except ε Unit) (v : ι) (vs : List ι) :
    AsyncTryStream.poll_next (listBody ι (Except ε Unit))
        ⟨none, some (BodyState.suspended ⟨true⟩ (v :: vs) r)⟩ =
      (some (Poll.Ready (some (Except.ok v))),
        ⟨none, some (BodyState.suspended ⟨true⟩ vs r)⟩) :=
  rfl

/-- Driving the suspended fallible list producer to exhaustion: the values in
order wrapped in `Ok`, then the terminal report for `r`, and the producer
ends in its completed state with the slot empty. -/
theorem listBodyTry_trace_suspended (ι ε : Type) (r : Except ε Unit) (vs : List ι) :
    AsyncTryStream.trace (listBody ι (Except ε Unit))
        ⟨none, some (BodyState.suspended ⟨true⟩ vs r)⟩ (vs.length + 1) =
      vs.map (fun v => some (Poll.Ready (some (Except.ok v)))) ++ [tryEnd r] ∧
    AsyncTryStream.drive (listBody ι (Except ε Unit))
        ⟨none, some (BodyState.suspended ⟨true⟩ vs r)⟩ (vs.length + 1) =
      ⟨none, some BodyState.done⟩ := by
  induction vs with
  | nil => exact ⟨by cases r <;> rfl, by cases r <;> rfl⟩
  | cons v vs ih =>
    have hn : (v :: vs).length + 1 = (vs.length + 1) + 1 := by simp
    constructor
    · rw [hn]
      show (AsyncTryStream.poll_next (listBody ι (Except ε Unit))
            ⟨none, some (BodyState.suspended ⟨true⟩ (v :: vs) r)⟩).1 ::
          AsyncTryStream.trace (listBody ι (Except ε Unit))
            (AsyncTryStream.poll_next (listBody ι (Except ε Unit))
              ⟨none, some (BodyState.suspended ⟨true⟩ (v :: vs) r)⟩).2 (vs.length + 1) = _
      rw [listBodyTry_step_cons]
      simp [ih.1]
    · rw [hn]
      show AsyncTryStream.drive (listBody ι (Except ε Unit))
          (AsyncTryStream.poll_next (listBody ι (Except ε Unit))
            ⟨none, some (BodyState.suspended ⟨true⟩ (v :: vs) r)⟩).2 (vs.length + 1) = _
      rw [listBodyTry_step_cons]
      exact ih.2

/-- Appending poll counts splits a try-stream trace at the intermediate
state. -/
theorem AsyncTryStream.trace_add (m : ProducerFuture σ ι (Except ε Unit))
    (s : AsyncTryStream σ ι ε) (a b : Nat) :
    AsyncTryStream.trace m s (a + b) =
      AsyncTryStream.trace m s a ++
        AsyncTryStream.trace m (AsyncTryStream.drive m s a) b := by
  induction a generalizing s with
  | zero => simp [AsyncTryStream.trace, AsyncTryStream.drive]
  | succ k ih =>
    rw [Nat.add_right_comm]
    show (AsyncTryStream.poll_next m s).1 ::
        AsyncTryStream.trace m (AsyncTryStream.poll_next m s).2 (k + b) = _
    rw [ih]
    simp [AsyncTryStream.trace, AsyncTryStream.drive]

/-- The unstarted list producer body behaves like one suspended at an already
ready emit point with the same remaining values: both resume into the loop
head. -/
theorem listBodyTry_poll_next_start (ι ε : Type) (r : Except ε Unit) (vs : List ι) :
    AsyncTryStream.poll_next (listBody ι (Except ε Unit))
        ⟨none, some (BodyState.start vs r)⟩ =
      AsyncTryStream.poll_next (listBody ι (Except ε Unit))
        ⟨none, some (BodyState.suspended ⟨true⟩ vs r)⟩ := by
  cases vs with
  | nil => cases r <;> rfl
  | cons v vs => rfl

/-- Traces of the unstarted and the freshly suspended list producer agree. -/
theorem listBodyTry_trace_start_eq (ι ε : Type) (r : Except ε Unit) (vs : List ι)
    (n : Nat) :
    AsyncTryStream.trace (listBody ι (Except ε Unit))
        ⟨none, some (BodyState.start vs r)⟩ (n + 1) =
      AsyncTryStream.trace (listBody ι (Except ε Unit))
        ⟨none, some (BodyState.suspended ⟨true⟩ vs r)⟩ (n + 1) := by
  show (AsyncTryStream.poll_next (listBody ι (Except ε Unit))
        ⟨none, some (BodyState.start vs r)⟩).1 ::
      AsyncTryStream.trace (listBody ι (Except ε Unit))
        (AsyncTryStream.poll_next (listBody ι (Except ε Unit))
          ⟨none, some (BodyState.start vs r)⟩).2 n =
    (AsyncTryStream.poll_next (listBody ι (Except ε Unit))
        ⟨none, some (BodyState.suspended ⟨true⟩ vs r)⟩).1 ::
      AsyncTryStream.trace (listBody ι (Except ε Unit))
        (AsyncTryStream.poll_next (listBody ι (Except ε Unit))
          ⟨none, some (BodyState.suspended ⟨true⟩ vs r)⟩).2 n
  rw [listBodyTry_poll_next_start]

/-- Drives of the unstarted and the freshly suspended list producer agree. -/
theorem listBodyTry_drive_start_eq (ι ε : Type) (r : Except ε Unit) (vs : List ι)
    (n : Nat) :
    AsyncTryStream.drive (listBody ι (Except ε Unit))
        ⟨none, some (BodyState.start vs r)⟩ (n + 1) =
      AsyncTryStream.drive (listBody ι (Except ε Unit))
        ⟨none, some (BodyState.suspended ⟨true⟩ vs r)⟩ (n + 1) := by
  show AsyncTryStream.drive (listBody ι (Except ε Unit))
      (AsyncTryStream.poll_next (listBody ι (Except ε Unit))
        ⟨none, some (BodyState.start vs r)⟩).2 n =
    AsyncTryStream.drive (listBody ι (Except ε Unit))
      (AsyncTryStream.poll_next (listBody ι (Except ε Unit))
        ⟨none, some (BodyState.suspended ⟨true⟩ vs r)⟩).2 n
  rw [listBodyTry_poll_next_start]

/-! The claims. -/

/-- C1: a producer body that emits the finite list `vs` (each send awaited)
and then completes normally makes `poll_next` yield exactly the values of
`vs`, in emission order, one per call, followed by exactly one end-of-stream
report `Ready none`; nothing is dropped, duplicated or reordered. -/
theorem C1_finite_emission_in_order (ι : Type) (vs : List ι) :
    AsyncStream.trace (listBody ι Unit)
        (AsyncStream.new (BodyState.start vs ())) (vs.length + 1) =
      vs.map (fun v => some (Poll.Ready (some v))) ++ [some (Poll.Ready none)] := by
  cases vs with
  | nil => rfl
  | cons v vs =>
    have hn : (v :: vs).length + 1 = (vs.length + 1) + 1 := by simp
    rw [hn]
    show (AsyncStream.poll_next (listBody ι Unit)
          (AsyncStream.new (BodyState.start (v :: vs) ()))).1 ::
        AsyncStream.trace (listBody ι Unit)
          (AsyncStream.poll_next (listBody ι Unit)
            (AsyncStream.new (BodyState.start (v :: vs) ()))).2 (vs.length + 1) = _
    have hstep : AsyncStream.poll_next (listBody ι Unit)
        (AsyncStream.new (BodyState.start (v :: vs) ())) =
        (some (Poll.Ready (some v)), ⟨none, some (BodyState.suspended ⟨true⟩ vs ())⟩) :=
      rfl
    rw [hstep]
    simp [listBody_trace_suspended]

/-- C2: one `poll_next` call on an infallible `AsyncStream` follows this case
analysis of polling the producer future: `Ready` gives `Ready none`; `Pending`
with a value in the slot removes the value from the slot and yields it;
`Pending` with an empty slot gives `Pending`. -/
theorem C2_poll_next_case_analysis {σ ι : Type} (m : ProducerFuture σ ι Unit)
    (s : AsyncStream σ ι) (f : σ) (hf : s.fut = some f) :
    (∀ u f' slot', m.poll f s.item = some (Poll.Ready u, f', slot') →
      AsyncStream.poll_next m s = (some (Poll.Ready none), ⟨slot', some f'⟩)) ∧
    (∀ f' v, m.poll f s.item = some (Poll.Pending, f', some v) →
      AsyncStream.poll_next m s = (some (Poll.Ready (some v)), ⟨none, some f'⟩)) ∧
    (∀ f', m.poll f s.item = some (Poll.Pending, f', none) →
      AsyncStream.poll_next m s = (some Poll.Pending, ⟨none, some f'⟩)) := by
  refine ⟨?_, ?_, ?_⟩ <;> intro _ _ <;> intros <;>
    simp_all [AsyncStream.poll_next]

/-- Witness for C2 at a concrete input: the list producer emitting `[3]` is
`Pending` after its first poll with `3` deposited, and `poll_next` drains it. -/
theorem C2_witness :
    AsyncStream.poll_next (listBody Nat Unit)
        (AsyncStream.new (BodyState.start [3] ())) =
      (some (Poll.Ready (some 3)),
        ⟨none, some (BodyState.suspended ⟨true⟩ [] ())⟩) :=
  (C2_poll_next_case_analysis (listBody Nat Unit)
      (AsyncStream.new (BodyState.start [3] ())) (BodyState.start [3] ()) rfl).2.1
    (BodyState.suspended ⟨true⟩ [] ()) 3 rfl

/-- C4: a fresh `SenderFuture` returns `Pending` on its first poll, with its
flag flipped to ready, and `Ready` on every later poll; the ready state never
reverses (polling it leaves it unchanged). -/
theorem C4_sender_future_pending_once (n : Nat) :
    SenderFuture.pollTrace SenderFuture.new (n + 1) =
      Poll.Pending :: List.replicate n (Poll.Ready ()) ∧
    (SenderFuture.poll SenderFuture.new).2 = ⟨true⟩ ∧
    SenderFuture.poll ⟨true⟩ = (Poll.Ready (), ⟨true⟩) := by
  refine ⟨?_, rfl, rfl⟩
  have hready : ∀ k, SenderFuture.pollTrace ⟨true⟩ k =
      List.replicate k (Poll.Ready ()) := by
    intro k
    induction k with
    | zero => rfl
    | succ j ih => simpa [SenderFuture.pollTrace, SenderFuture.poll, List.replicate] using ih
  show (SenderFuture.poll SenderFuture.new).1 ::
      SenderFuture.pollTrace (SenderFuture.poll SenderFuture.new).2 n = _
  simpa [SenderFuture.poll, SenderFuture.new] using hready n

/-- C6: `Sender::send` synchronously stores the converted value into the
shared slot (so the slot is non-empty right after the call), whatever the
slot held before, and returns a fresh not-yet-ready `SenderFuture`; it makes
no other change. -/
theorem C6_send_deposits_and_returns_token {τ ι : Type} (into : τ → ι)
    (slot : Slot ι) (v : τ) :
    Sender.send into slot v = (some (into v), SenderFuture.new) ∧
    (Sender.send into slot v).1.isSome = true ∧
    (Sender.send into slot v).2.is_ready = false :=
  ⟨rfl, rfl, rfl⟩

/-- C7: right after `AsyncStream::new` or `AsyncTryStream::new` the slot is
empty and the stored producer future is exactly the factory's output, still
in its initial suspended state: no producer code has run and nothing was
deposited. -/
theorem C7_construction_runs_nothing {σ ι ε : Type} (f g : σ) :
    (AsyncStream.new f : AsyncStream σ ι).item = none ∧
    (AsyncStream.new f : AsyncStream σ ι).fut = some f ∧
    (AsyncTryStream.new g : AsyncTryStream σ ι ε).item = none ∧
    (AsyncTryStream.new g : AsyncTryStream σ ι ε).fut = some g :=
  ⟨rfl, rfl, rfl, rfl⟩

/-- C3 counterexample: the stream keeps no `Exhausted` state, so an error
report is not terminal for every producer: with a producer future that
tolerates re-polling and keeps completing with `Err(true)`, the first
`poll_next` reports the error and the second `poll_next` reports the very
same error again — a further error does follow the first report. -/
theorem C3_counterexample :
    (AsyncTryStream.poll_next (errBody Nat true) (AsyncTryStream.new 0)).1 =
      some (Poll.Ready (some (Except.error true))) ∧
    (AsyncTryStream.poll_next (errBody Nat true)
        (AsyncTryStream.poll_next (errBody Nat true) (AsyncTryStream.new 0)).2).1 =
      some (Poll.Ready (some (Except.error true))) :=
  ⟨rfl, rfl⟩

/-- C3 amended: on an `AsyncTryStream`, a producer future completing with
`Err(e)` makes `poll_next` report `Ready (some (Err e))` and completing with
`Ok(())` makes it report `Ready none`; every reported error comes from such a
completion (an item is only ever delivered wrapped in `Ok`, never paired with
an error).  Whether anything follows a reported error depends on the
producer, since the stream keeps no `Exhausted` state: once the list-producer
async block has reported its error, no further item or error ever follows
(re-polling the completed block only panics), but a producer future that
tolerates re-polling and keeps completing with `Err(e)` is polled again by
every further `poll_next` call, which then reports the same error again. -/
theorem C3_error_reporting {σ ι ε : Type} :
    (∀ (m : ProducerFuture σ ι (Except ε Unit)) (s : AsyncTryStream σ ι ε)
        (f : σ) (e : ε) (f' : σ) (slot' : Slot ι),
      s.fut = some f →
      m.poll f s.item = some (Poll.Ready (Except.error e), f', slot') →
      AsyncTryStream.poll_next m s =
        (some (Poll.Ready (some (Except.error e))), ⟨slot', some f'⟩)) ∧
    (∀ (m : ProducerFuture σ ι (Except ε Unit)) (s : AsyncTryStream σ ι ε)
        (f : σ) (u : Unit) (f' : σ) (slot' : Slot ι),
      s.fut = some f →
      m.poll f s.item = some (Poll.Ready (Except.ok u), f', slot') →
      AsyncTryStream.poll_next m s = (some (Poll.Ready none), ⟨slot', some f'⟩)) ∧
    (∀ (m : ProducerFuture σ ι (Except ε Unit)) (s : AsyncTryStream σ ι ε)
        (e : ε) (s' : AsyncTryStream σ ι ε),
      AsyncTryStream.poll_next m s = (some (Poll.Ready (some (Except.error e))), s') →
      ∃ f f' slot', s.fut = some f ∧
        m.poll f s.item = some (Poll.Ready (Except.error e), f', slot')) ∧
    (∀ (vs : List ι) (e : ε) (n : Nat),
      AsyncTryStream.trace (listBody ι (Except ε Unit))
          (AsyncTryStream.new (BodyState.start vs (Except.error e)))
          (vs.length + 1 + n) =
        vs.map (fun v => some (Poll.Ready (some (Except.ok v)))) ++
          some (Poll.Ready (some (Except.error e))) :: List.replicate n none) ∧
    (∀ (e : ε) (k : Nat) (slot : Slot ι),
      AsyncTryStream.poll_next (errBody ι e) ⟨slot, some k⟩ =
        (some (Poll.Ready (some (Except.error e))), ⟨slot, some (k + 1)⟩)) := by
  refine ⟨?_, ?_, ?_, ?_, ?_⟩
  · intro m s f e f' slot' hf hp
    simp [AsyncTryStream.poll_next, hf, hp]
  · intro m s f u f' slot' hf hp
    simp [AsyncTryStream.poll_next, hf, hp]
  · intro m s e s' h
    rcases hfut : s.fut with _ | f
    · simp [AsyncTryStream.poll_next, hfut] at h
    · rcases hp : m.poll f s.item with _ | ⟨pr, f', slot'⟩
      · simp [AsyncTryStream.poll_next, hfut, hp] at h
      · rcases pr with r | _
        · rcases r with e' | u
          · have he : e' = e := by
              simp [AsyncTryStream.poll_next, hfut, hp] at h
              exact h.1
            exact ⟨f, f', slot', rfl, by rw [← he]; exact hp⟩
          · simp [AsyncTryStream.poll_next, hfut, hp] at h
        · rcases slot' with _ | v
          · simp [AsyncTryStream.poll_next, hfut, hp] at h
          · simp [AsyncTryStream.poll_next, hfut, hp] at h
  · intro vs e n
    simp only [AsyncTryStream.new]
    rw [AsyncTryStream.trace_add, listBodyTry_trace_start_eq, listBodyTry_drive_start_eq,
      (listBodyTry_trace_suspended ι ε (Except.error e) vs).1,
      (listBodyTry_trace_suspended ι ε (Except.error e) vs).2,
      tryTrace_panic (listBody ι (Except ε Unit))
        ⟨none, some BodyState.done⟩ BodyState.done rfl rfl n]
    simp [tryEnd]
  · intro e k slot
    rfl

/-- Witness for the amended C3 at a concrete input: a producer that
immediately fails with `Err(true)` makes the first `poll_next` report that
error. -/
theorem C3_witness :
    AsyncTryStream.poll_next (listBody Nat (Except Bool Unit))
        (AsyncTryStream.new (BodyState.start [] (Except.error true))) =
      (some (Poll.Ready (some (Except.error true))), ⟨none, some BodyState.done⟩) :=
  C3_error_reporting.1 (listBody Nat (Except Bool Unit))
    (AsyncTryStream.new (BodyState.start [] (Except.error true)))
    (BodyState.start [] (Except.error true)) true BodyState.done none rfl rfl

/-- C5 counterexample: emit `[7]`, drain the stream (value then end of
stream); the claim says a further `poll_next` is safe, is a no-op and again
reports `Ready none`.  In fact it polls the completed async block again,
which panics (the model result `none`), and a producer that tolerates
re-polling is nevertheless resumed: its poll counter keeps growing after the
first completion report. -/
theorem C5_counterexample :
    AsyncStream.trace (listBody Nat Unit)
        (AsyncStream.new (BodyState.start [7] ())) 2 =
      [some (Poll.Ready (some 7)), some (Poll.Ready none)] ∧
    (AsyncStream.poll_next (listBody Nat Unit)
        (AsyncStream.drive (listBody Nat Unit)
          (AsyncStream.new (BodyState.start [7] ())) 2)).1 ≠
      some (Poll.Ready none) ∧
    (AsyncStream.drive (readyBody Nat) (AsyncStream.new 0) 2).fut = some 2 :=
  ⟨by decide, by decide, by decide⟩

/-- C5 amended: a `poll_next` call after the producer future has completed is
not a stored no-op: it polls (resumes) the producer future again.  When that
poll panics — as an async block resumed after completion does — the panic
propagates out of `poll_next`; when the future tolerates re-polling and
returns `Ready` again, `poll_next` reports `Ready none` again (each such call
polling the producer once more, as the counter producer shows). -/
theorem C5_amended_poll_next_repolls {σ ι : Type} (m : ProducerFuture σ ι Unit)
    (s : AsyncStream σ ι) (f : σ) (hf : s.fut = some f) :
    (m.poll f s.item = none → AsyncStream.poll_next m s = (none, s)) ∧
    (∀ u f' slot', m.poll f s.item = some (Poll.Ready u, f', slot') →
      AsyncStream.poll_next m s = (some (Poll.Ready none), ⟨slot', some f'⟩)) ∧
    (∀ (k : Nat) (slot : Slot ι),
      AsyncStream.poll_next (readyBody ι) ⟨slot, some k⟩ =
        (some (Poll.Ready none), ⟨slot, some (k + 1)⟩)) := by
  refine ⟨?_, ?_, ?_⟩
  · intro hp
    simp [AsyncStream.poll_next, hf, hp]
  · intro u f' slot' hp
    simp [AsyncStream.poll_next, hf, hp]
  · intro k slot
    rfl

/-- Witness for the amended C5 at a concrete input: polling the exhausted
`[7]` stream once more panics instead of reporting `Ready none`. -/
theorem C5_witness :
    AsyncStream.poll_next (listBody Nat Unit) ⟨none, some BodyState.done⟩ =
      (none, ⟨none, some BodyState.done⟩) :=
  (C5_amended_poll_next_repolls (listBody Nat Unit)
      ⟨none, some BodyState.done⟩ BodyState.done rfl).1 rfl

/-- C8: the futures 0.1 `poll` on `AsyncTryStream` is equivalent to
`poll_next`: on every state its outcome is the image of the `poll_next`
outcome under the compat correspondence (item to `Ok(Ready(Some v))`,
pending to `Ok(NotReady)`, terminal error to `Err(e)`, end of stream to
`Ok(Ready(None))`, panic to panic), and — whenever the producer poll does not
panic — both leave the stream in the identical state, so the adapter keeps no
state of its own. -/
theorem C8_poll01_equiv_poll_next {σ ι ε : Type}
    (m : ProducerFuture σ ι (Except ε Unit)) (s : AsyncTryStream σ ι ε) :
    (AsyncTryStream.poll01 m s).1 = compatResult (AsyncTryStream.poll_next m s).1 ∧
    ((∀ f, s.fut = some f → m.poll f s.item ≠ none) →
      (AsyncTryStream.poll01 m s).2 = (AsyncTryStream.poll_next m s).2) := by
  rcases hfut : s.fut with _ | f
  · exact ⟨by simp [AsyncTryStream.poll01, AsyncTryStream.poll_next, hfut, compatResult],
      fun _ => by simp [AsyncTryStream.poll01, AsyncTryStream.poll_next, hfut]⟩
  · rcases hp : m.poll f s.item with _ | ⟨pr, f', slot'⟩
    · refine ⟨?_, ?_⟩
      · simp [AsyncTryStream.poll01, AsyncTryStream.poll_next, hfut, hp, compatResult]
      · intro h
        exact absurd hp (h f rfl)
    · rcases pr with r | _
      · rcases r with e | u
        · exact ⟨by simp [AsyncTryStream.poll01, AsyncTryStream.poll_next, hfut, hp,
              Compat03As01.poll, compatResult],
            fun _ => by simp [AsyncTryStream.poll01, AsyncTryStream.poll_next, hfut, hp,
              Compat03As01.poll]⟩
        · exact ⟨by simp [AsyncTryStream.poll01, AsyncTryStream.poll_next, hfut, hp,
              Compat03As01.poll, compatResult],
            fun _ => by simp [AsyncTryStream.poll01, AsyncTryStream.poll_next, hfut, hp,
              Compat03As01.poll]⟩
      · rcases slot' with _ | v
        · exact ⟨by simp [AsyncTryStream.poll01, AsyncTryStream.poll_next, hfut, hp,
              Compat03As01.poll, compatResult],
            fun _ => by simp [AsyncTryStream.poll01, AsyncTryStream.poll_next, hfut, hp,
              Compat03As01.poll]⟩
        · exact ⟨by simp [AsyncTryStream.poll01, AsyncTryStream.poll_next, hfut, hp,
              Compat03As01.poll, compatResult],
            fun _ => by simp [AsyncTryStream.poll01, AsyncTryStream.poll_next, hfut, hp,
              Compat03As01.poll]⟩

/-- Witness for C8 at a concrete input: on the fresh `[4]`-then-`Err(true)`
stream the legacy poll yields the compat image of `poll_next` and the same
post-state. -/
theorem C8_witness :
    (AsyncTryStream.poll01 (listBody Nat (Except Bool Unit))
        (AsyncTryStream.new (BodyState.start [4] (Except.error true)))).1 =
      compatResult ((AsyncTryStream.poll_next (listBody Nat (Except Bool Unit))
        (AsyncTryStream.new (BodyState.start [4] (Except.error true)))).1) ∧
    (AsyncTryStream.poll01 (listBody Nat (Except Bool Unit))
        (AsyncTryStream.new (BodyState.start [4] (Except.error true)))).2 =
      (AsyncTryStream.poll_next (listBody Nat (Except Bool Unit))
        (AsyncTryStream.new (BodyState.start [4] (Except.error true)))).2 := by
  refine ⟨(C8_poll01_equiv_poll_next (listBody Nat (Except Bool Unit))
      (AsyncTryStream.new (BodyState.start [4] (Except.error true)))).1,
    (C8_poll01_equiv_poll_next (listBody Nat (Except Bool Unit))
      (AsyncTryStream.new (BodyState.start [4] (Except.error true)))).2 ?_⟩
  intro f hf
  have hf' : BodyState.start [4] (Except.error true) = f := by
    injection hf
  rw [← hf']
  exact fun hcontra => Option.noConfusion hcontra

/-- C9: if the producer future completes while the slot holds a deposited
value (the producer sent without awaiting the token through to suspension),
`poll_next` reports end of stream — or the terminal error — without
delivering the value: the item stays undrained in the slot and is never
surfaced, as the concrete send-without-await producer shows on every trace. -/
theorem C9_completion_discards_slot {σ ι ε : Type} :
    (∀ (m : ProducerFuture σ ι Unit) (s : AsyncStream σ ι)
        (f : σ) (u : Unit) (f' : σ) (v : ι),
      s.fut = some f → m.poll f s.item = some (Poll.Ready u, f', some v) →
      AsyncStream.poll_next m s = (some (Poll.Ready none), ⟨some v, some f'⟩)) ∧
    (∀ (m : ProducerFuture σ ι (Except ε Unit)) (s : AsyncTryStream σ ι ε)
        (f : σ) (u : Unit) (f' : σ) (v : ι),
      s.fut = some f →
      m.poll f s.item = some (Poll.Ready (Except.ok u), f', some v) →
      AsyncTryStream.poll_next m s = (some (Poll.Ready none), ⟨some v, some f'⟩)) ∧
    (∀ (m : ProducerFuture σ ι (Except ε Unit)) (s : AsyncTryStream σ ι ε)
        (f : σ) (e : ε) (f' : σ) (v : ι),
      s.fut = some f →
      m.poll f s.item = some (Poll.Ready (Except.error e), f', some v) →
      AsyncTryStream.poll_next m s =
        (some (Poll.Ready (some (Except.error e))), ⟨some v, some f'⟩)) ∧
    (∀ (v : ι) (n : Nat),
      AsyncStream.trace (sendDropBody v ()) (AsyncStream.new false) (n + 1) =
        some (Poll.Ready none) :: List.replicate n none) := by
  refine ⟨?_, ?_, ?_, ?_⟩
  · intro m s f u f' v hf hp
    simp [AsyncStream.poll_next, hf, hp]
  · intro m s f u f' v hf hp
    simp [AsyncTryStream.poll_next, hf, hp]
  · intro m s f e f' v hf hp
    simp [AsyncTryStream.poll_next, hf, hp]
  · intro v n
    show (AsyncStream.poll_next (sendDropBody v ()) (AsyncStream.new false)).1 ::
        AsyncStream.trace (sendDropBody v ())
          (AsyncStream.poll_next (sendDropBody v ()) (AsyncStream.new false)).2 n = _
    have hstep : AsyncStream.poll_next (sendDropBody v ()) (AsyncStream.new false) =
        (some (Poll.Ready none), ⟨some v, some true⟩) := rfl
    rw [hstep, streamTrace_panic (sendDropBody v ()) ⟨some v, some true⟩ true rfl rfl n]

/-- Witness for C9 at a concrete input: the producer that deposits `5` and
returns at once makes the first `poll_next` report end of stream with `5`
still sitting in the slot. -/
theorem C9_witness :
    AsyncStream.poll_next (sendDropBody 5 ()) (AsyncStream.new false) =
      (some (Poll.Ready none), ⟨some 5, some true⟩) :=
  (@C9_completion_discards_slot Bool Nat Unit).1 (sendDropBody 5 ())
    (AsyncStream.new false) false () true 5 rfl rfl

/-- C10: the `fut` field is `Some` after construction and stays `Some` under
every operation: one `poll_next` preserves it, any number of `poll_next`
calls from a fresh stream never leave it `None` (so the unwrap inside
`poll_next` never observes `None`), and the legacy poll, which takes `fut`
out temporarily, has restored it by the time it returns on its success,
not-ready and error paths alike. -/
theorem C10_fut_always_some {σ ι ε : Type} :
    (∀ f : σ, (AsyncStream.new f : AsyncStream σ ι).fut.isSome = true) ∧
    (∀ (m : ProducerFuture σ ι Unit) (s : AsyncStream σ ι),
      s.fut.isSome = true → ((AsyncStream.poll_next m s).2).fut.isSome = true) ∧
    (∀ (m : ProducerFuture σ ι Unit) (f : σ) (n : Nat),
      ((AsyncStream.drive m (AsyncStream.new f) n)).fut.isSome = true) ∧
    (∀ g : σ, (AsyncTryStream.new g : AsyncTryStream σ ι ε).fut.isSome = true) ∧
    (∀ (m : ProducerFuture σ ι (Except ε Unit)) (s : AsyncTryStream σ ι ε),
      s.fut.isSome = true → ((AsyncTryStream.poll_next m s).2).fut.isSome = true) ∧
    (∀ (m : ProducerFuture σ ι (Except ε Unit)) (s : AsyncTryStream σ ι ε) (f : σ),
      s.fut = some f → m.poll f s.item ≠ none →
      ((AsyncTryStream.poll01 m s).2).fut.isSome = true) := by
  have hpres : ∀ (m : ProducerFuture σ ι Unit) (s : AsyncStream σ ι),
      s.fut.isSome = true → ((AsyncStream.poll_next m s).2).fut.isSome = true := by
    intro m s hs
    rcases hfut : s.fut with _ | f
    · rw [hfut] at hs
      cases hs
    · rcases hp : m.poll f s.item with _ | ⟨pr, f', slot'⟩
      · simp [AsyncStream.poll_next, hfut, hp]
      · rcases pr with u | _
        · simp [AsyncStream.poll_next, hfut, hp]
        · rcases slot' with _ | v <;> simp [AsyncStream.poll_next, hfut, hp]
  refine ⟨fun f => rfl, hpres, ?_, fun g => rfl, ?_, ?_⟩
  · intro m f n
    have hdrive : ∀ (k : Nat) (s : AsyncStream σ ι), s.fut.isSome = true →
        ((AsyncStream.drive m s k)).fut.isSome = true := by
      intro k
      induction k with
      | zero => intro s hs; exact hs
      | succ j ih =>
        intro s hs
        exact ih (AsyncStream.poll_next m s).2 (hpres m s hs)
    exact hdrive n (AsyncStream.new f) rfl
  · intro m s hs
    rcases hfut : s.fut with _ | f
    · rw [hfut] at hs
      cases hs
    · rcases hp : m.poll f s.item with _ | ⟨pr, f', slot'⟩
      · simp [AsyncTryStream.poll_next, hfut, hp]
      · rcases pr with r | _
        · rcases r with e | u <;> simp [AsyncTryStream.poll_next, hfut, hp]
        · rcases slot' with _ | v <;> simp [AsyncTryStream.poll_next, hfut, hp]
  · intro m s f hf hnp
    rcases hp : m.poll f s.item with _ | ⟨pr, f', slot'⟩
    · exact absurd hp hnp
    · rcases pr with r | _
      · rcases r with e | u <;> simp [AsyncTryStream.poll01, hf, hp, Compat03As01.poll]
      · rcases slot' with _ | v <;> simp [AsyncTryStream.poll01, hf, hp, Compat03As01.poll]

/-- Witness for C10 at a concrete input: after one legacy poll of the fresh
`[4]`-then-`Ok` stream, `fut` is back in place. -/
theorem C10_witness :
    ((AsyncTryStream.poll01 (listBody Nat (Except Bool Unit))
        (AsyncTryStream.new (BodyState.start [4] (Except.ok ())))).2).fut.isSome = true := by
  refine C10_fut_always_some.2.2.2.2.2 (listBody Nat (Except Bool Unit))
    (AsyncTryStream.new (BodyState.start [4] (Except.ok ())))
    (BodyState.start [4] (Except.ok ())) rfl ?_
  exact fun hcontra => Option.noConfusion hcontra

end AsyncStreamRs
